import Mathlib

/-!
Verification of the dual-expiry variance-extrapolation discount engine of the
lockup_calculator repository.  Numeric market data (strikes, quoted prices,
implied-vol percentages, day counts) is modelled over `ℚ` so that the discrete
control flow (strike matching, sorting, truncation) stays executable; derived
quantities that pass through `sqrt`, `log` and `exp` live in `ℝ`.
JavaScript number arithmetic is modelled as exact real arithmetic.
-/

/-- The three variance-extrapolation strategies
(`ExtrapolationStrategy` enum in `types/index.ts`). -/
inductive ExtrapolationStrategy
  | interpolation
  | extrapolation
  | boundedExtrapolation
  deriving DecidableEq

/-- Embedding of `calculateExtrapolatedVolatility` from the calculator module
(`part_007`, lines 451-564).  Inputs: decimal vols, tenors in years.
Non-positive inputs short-circuit to the fallback `max shortTermVol longTermVol`;
otherwise the strategy-selected target variance is clamped to
`[0.01*targetTime, 4.0*targetTime]`, converted back to a volatility, and the
result is clamped to `[0.10, 3.0]`. -/
noncomputable def calculateExtrapolatedVolatility
    (shortTermVol shortTermTime longTermVol longTermTime targetTime : ℝ)
    (strategy : ExtrapolationStrategy) : ℝ :=
  if shortTermVol ≤ 0 ∨ longTermVol ≤ 0 ∨ shortTermTime ≤ 0 ∨ longTermTime ≤ 0 ∨ targetTime ≤ 0 then
    max shortTermVol longTermVol
  else
    let shortTermVariance := shortTermVol * shortTermVol * shortTermTime
    let longTermVariance := longTermVol * longTermVol * longTermTime
    let targetVariance :=
      match strategy with
      | .interpolation =>
          let interpolationFactor := (targetTime - shortTermTime) / (longTermTime - shortTermTime)
          shortTermVariance + (longTermVariance - shortTermVariance) * interpolationFactor
      | .extrapolation =>
          let slope := (longTermVariance - shortTermVariance) / (longTermTime - shortTermTime)
          let extrapolationDistance := targetTime - longTermTime
          let linearVariance := longTermVariance + slope * extrapolationDistance
          if 1.0 ≤ targetTime then
            let baseVolatility := Real.sqrt (longTermVariance / longTermTime)
            let logEnhancementFactor := 1 + 0.05 * Real.log targetTime
            let enhancedVolatility := baseVolatility * logEnhancementFactor
            enhancedVolatility * enhancedVolatility * targetTime
          else
            linearVariance
      | .boundedExtrapolation =>
          let boundedSlope := (longTermVariance - shortTermVariance) / (longTermTime - shortTermTime)
          let boundedDistance := targetTime - shortTermTime
          let rawVariance := shortTermVariance + boundedSlope * boundedDistance
          let conservativeFactor := min 1.0 (2.0 / max 1.0 boundedDistance)
          rawVariance * conservativeFactor
    let minVariance := 0.01 * targetTime
    let maxVariance := 4.0 * targetTime
    let clampedVariance := max minVariance (min maxVariance targetVariance)
    let targetVolatility := Real.sqrt (clampedVariance / targetTime)
    min (max targetVolatility 0.10) 3.0

/-- Embedding of `cumulativeNormalDistribution` from the calculator module (`part_007`,
lines 15-31): the Abramowitz-Stegun rational approximation of the standard
normal CDF, with the source's exact coefficients. -/
noncomputable def cumulativeNormalDistribution (x : ℝ) : ℝ :=
  let a1 : ℝ := 0.254829592
  let a2 : ℝ := -0.284496736
  let a3 : ℝ := 1.421413741
  let a4 : ℝ := -1.453152027
  let a5 : ℝ := 1.061405429
  let p : ℝ := 0.3275911
  let sign : ℝ := if x < 0 then -1 else 1
  let z := |x| / Real.sqrt 2.0
  let t := 1.0 / (1.0 + p * z)
  let y := 1.0 - (((((a5 * t + a4) * t) + a3) * t + a2) * t + a1) * t * Real.exp (-z * z)
  0.5 * (1.0 + sign * y)

/-- Embedding of `blackScholesCall` from the calculator module (`part_007`, lines 34-45). -/
noncomputable def blackScholesCall (S K T r sigma : ℝ) : ℝ :=
  let d1 := (Real.log (S / K) + (r + 0.5 * sigma * sigma) * T) / (sigma * Real.sqrt T)
  let d2 := d1 - sigma * Real.sqrt T
  S * cumulativeNormalDistribution d1 -
    K * Real.exp (-r * T) * cumulativeNormalDistribution d2

/-- Embedding of `blackScholesPut` from the calculator module (`part_007`, lines 48-59). -/
noncomputable def blackScholesPut (S K T r sigma : ℝ) : ℝ :=
  let d1 := (Real.log (S / K) + (r + 0.5 * sigma * sigma) * T) / (sigma * Real.sqrt T)
  let d2 := d1 - sigma * Real.sqrt T
  K * Real.exp (-r * T) * cumulativeNormalDistribution (-d2) -
    S * cumulativeNormalDistribution (-d1)

/-- The `d1` term of the source's Black-Scholes implementation. -/
noncomputable def bsD1 (S K T r sigma : ℝ) : ℝ :=
  (Real.log (S / K) + (r + 0.5 * sigma * sigma) * T) / (sigma * Real.sqrt T)

/-- The `d2` term of the source's Black-Scholes implementation. -/
noncomputable def bsD2 (S K T r sigma : ℝ) : ℝ :=
  bsD1 S K T r sigma - sigma * Real.sqrt T

/-- Embedding of `varianceExtrapolation` from the calculator module (`part_007`, lines
62-78): plain variance-linear interpolation with no clamps. -/
noncomputable def varianceExtrapolation
    (impliedVol1 time1 impliedVol2 time2 targetTime : ℝ) : ℝ :=
  let variance1 := impliedVol1 * impliedVol1 * time1
  let variance2 := impliedVol2 * impliedVol2 * time2
  let targetVariance := variance1 + (variance2 - variance1) * (targetTime - time1) / (time2 - time1)
  Real.sqrt (targetVariance / targetTime)

/-- The per-contract volatility selection of `calculateDiscountFromOptions`
(`part_007`, lines 190-213), rendered with explicit state: the percentage is
converted to a decimal, a zero implied vol is replaced by the `0.8` default,
and only for tenors in `(0.25, 1.0]` the synthetic-anchor variance
interpolation is applied (there is no `else` arm for tenors above one year). -/
noncomputable def fallbackVolatility (impliedVolPct : ℚ) (timeToExpiry : ℚ) : ℝ :=
  let impliedVolatility : ℚ := impliedVolPct / 100
  let adjustedVol : ℚ := if impliedVolatility = 0 then 0.8 else impliedVolatility
  if 0.25 < timeToExpiry then
    if timeToExpiry ≤ 1.0 then
      varianceExtrapolation (adjustedVol : ℝ) 0.25 ((adjustedVol : ℝ) * 1.1) 1.0
        (timeToExpiry : ℝ)
    else (adjustedVol : ℝ)
  else (adjustedVol : ℝ)

/-- Embedding of `OptionData` from `types/index.ts`.  Optional bid/ask quotes are `Option`;
the JS `x || 0` default is modelled with `Option.getD 0`. -/
structure OptionData where
  strike : ℚ
  callPrice : ℚ
  putPrice : ℚ
  expiry : String
  impliedVol : ℚ
  callBid : Option ℚ := none
  callAsk : Option ℚ := none
  putBid : Option ℚ := none
  putAsk : Option ℚ := none
  deriving DecidableEq

/-- One leg of `DualExpiryData` from `types/index.ts`. -/
structure TermData where
  expiry : String
  timeToExpiry : ℚ
  impliedVol : ℚ
  optionsData : List OptionData

/-- Embedding of `DualExpiryData` from `types/index.ts`. -/
structure DualExpiryData where
  shortTerm : TermData
  longTerm : TermData
  strategy : ExtrapolationStrategy
  targetTimeToExpiry : ℚ

/-- Embedding of `ATMCalculation` from `types/index.ts`, with the dual-expiry extension
fields (set only by the dual-expiry entry point). -/
structure ATMCalculation where
  strike : ℚ
  callDiscount : ℝ
  putDiscount : ℝ
  theoreticalCallPrice : ℝ
  theoreticalPutPrice : ℝ
  impliedVolatility : ℝ
  weight : ℚ
  atmDistance : ℚ
  expiry : String
  shortTermIV : Option ℚ := none
  longTermIV : Option ℚ := none
  shortTermExpiry : Option String := none
  longTermExpiry : Option String := none
  extrapolationStrategy : Option ExtrapolationStrategy := none

/-- Embedding of `RawATMContract` as constructed in `calculateDiscountFromDualExpiry`
(`part_007`, lines 384-421). -/
structure RawATMContract where
  strike : ℚ
  callPrice : ℚ
  putPrice : ℚ
  impliedVol : ℚ
  expiry : String
  atmDistance : ℚ
  weight : ℚ

/-- Embedding of `DiscountCalculation` from `types/index.ts` (the fields produced by the
two engine entry points). -/
structure DiscountCalculation where
  annualizedRate : ℝ
  fairValue : ℝ
  discount : ℝ
  method : String
  callDiscount : ℝ
  putDiscount : ℝ
  impliedVolatility : ℝ
  theoreticalCallPrice : ℝ
  theoreticalPutPrice : ℝ
  atmCalculations : List ATMCalculation
  totalContracts : ℕ
  rawShortTermContracts : List RawATMContract := []
  rawLongTermContracts : List RawATMContract := []

/-- The error conditions thrown by the calculator module (`throw new Error`
sites in `part_007`). -/
inductive CalcError
  | noOptionsData
  | noSuitableATM
  | noCommonStrikes
  | noATMCalculations
  deriving DecidableEq

/-- String label of a strategy (the TS enum's string value). -/
def strategyString : ExtrapolationStrategy → String
  | .interpolation => "interpolation"
  | .extrapolation => "extrapolation"
  | .boundedExtrapolation => "bounded_extrapolation"

/-- The liquidity score `1 / (1 + spread/avgPrice)` computed inline in both
entry points (`part_007`, lines 161-167 and 340-344), with missing bid/ask
defaulting to `0`. -/
def calculateLiquidityScore (o : OptionData) : ℚ :=
  let spread := o.callAsk.getD 0 - o.callBid.getD 0 + o.putAsk.getD 0 - o.putBid.getD 0
  let avgPrice := (o.callPrice + o.putPrice) / 2
  let spreadRatio := spread / avgPrice
  1 / (1 + spreadRatio)

/-- Embedding of `calculateDiscountFromDualExpiry` from the calculator module (`part_007`,
lines 283-448).  The two `throw` sites become `Except.error`; console logging
and validation warnings are output-only in the source and are dropped. -/
noncomputable def calculateDiscountFromDualExpiry
    (dualExpiryData : DualExpiryData) (spotPrice : ℚ) (lockupDays : ℚ)
    (riskFreeRate : ℝ) : Except CalcError DiscountCalculation :=
  let targetTimeToExpiry := dualExpiryData.targetTimeToExpiry
  let shortTermStrikes := dualExpiryData.shortTerm.optionsData.map (fun o => o.strike)
  let commonStrikes := dualExpiryData.longTerm.optionsData.filter
    (fun o => decide (o.strike ∈ shortTermStrikes))
  if commonStrikes.isEmpty then
    .error .noCommonStrikes
  else
    let sortedCommonStrikes :=
      (List.insertionSort (fun a b => a.2 ≤ b.2)
        (commonStrikes.map (fun o => (o, |o.strike - spotPrice|)))).take 5
    let calculations := sortedCommonStrikes.filterMap (fun longTermOption =>
      match dualExpiryData.shortTerm.optionsData.find?
          (fun o => o.strike == longTermOption.1.strike) with
      | none => none
      | some _ =>
        let extrapolatedIV := calculateExtrapolatedVolatility
          ((dualExpiryData.shortTerm.impliedVol : ℝ) / 100)
          (dualExpiryData.shortTerm.timeToExpiry : ℝ)
          ((dualExpiryData.longTerm.impliedVol : ℝ) / 100)
          (dualExpiryData.longTerm.timeToExpiry : ℝ)
          (targetTimeToExpiry : ℝ) dualExpiryData.strategy
        let theoreticalCallPrice := blackScholesCall (spotPrice : ℝ)
          (longTermOption.1.strike : ℝ) (targetTimeToExpiry : ℝ) riskFreeRate extrapolatedIV
        let theoreticalPutPrice := blackScholesPut (spotPrice : ℝ)
          (longTermOption.1.strike : ℝ) (targetTimeToExpiry : ℝ) riskFreeRate extrapolatedIV
        some { strike := longTermOption.1.strike
               callDiscount := theoreticalCallPrice / (spotPrice : ℝ) * 100
               putDiscount := theoreticalPutPrice / (spotPrice : ℝ) * 100
               theoreticalCallPrice := theoreticalCallPrice
               theoreticalPutPrice := theoreticalPutPrice
               impliedVolatility := extrapolatedIV * 100
               weight := calculateLiquidityScore longTermOption.1
               atmDistance := longTermOption.2
               expiry := dualExpiryData.shortTerm.expiry ++ "+" ++ dualExpiryData.longTerm.expiry
               shortTermIV := some dualExpiryData.shortTerm.impliedVol
               longTermIV := some dualExpiryData.longTerm.impliedVol
               shortTermExpiry := some dualExpiryData.shortTerm.expiry
               longTermExpiry := some dualExpiryData.longTerm.expiry
               extrapolationStrategy := some dualExpiryData.strategy })
    if calculations.isEmpty then
      .error .noATMCalculations
    else
      let totalWeight := (calculations.map (fun c => c.weight)).sum
      let weightedCallDiscount :=
        ((calculations.map (fun c => c.callDiscount * (c.weight : ℝ))).sum) / (totalWeight : ℝ)
      let weightedPutDiscount :=
        ((calculations.map (fun c => c.putDiscount * (c.weight : ℝ))).sum) / (totalWeight : ℝ)
      let weightedVolatility :=
        ((calculations.map (fun c => c.impliedVolatility * (c.weight : ℝ))).sum) / (totalWeight : ℝ)
      let weightedCallPrice :=
        ((calculations.map (fun c => c.theoreticalCallPrice * (c.weight : ℝ))).sum) / (totalWeight : ℝ)
      let weightedPutPrice :=
        ((calculations.map (fun c => c.theoreticalPutPrice * (c.weight : ℝ))).sum) / (totalWeight : ℝ)
      let rawShortTermContracts := sortedCommonStrikes.filterMap (fun longTermOption =>
        match dualExpiryData.shortTerm.optionsData.find?
            (fun o => o.strike == longTermOption.1.strike) with
        | none => none
        | some shortTermOption =>
          some { strike := shortTermOption.strike
                 callPrice := shortTermOption.callPrice
                 putPrice := shortTermOption.putPrice
                 impliedVol := shortTermOption.impliedVol
                 expiry := shortTermOption.expiry
                 atmDistance := |shortTermOption.strike - spotPrice|
                 weight := calculateLiquidityScore shortTermOption })
      let rawLongTermContracts := sortedCommonStrikes.map (fun longTermOption =>
        { strike := longTermOption.1.strike
          callPrice := longTermOption.1.callPrice
          putPrice := longTermOption.1.putPrice
          impliedVol := longTermOption.1.impliedVol
          expiry := longTermOption.1.expiry
          atmDistance := longTermOption.2
          weight := calculateLiquidityScore longTermOption.1 })
      .ok { method := "dual-expiry variance extrapolation (" ++
              strategyString dualExpiryData.strategy ++ ")"
            discount := weightedCallDiscount
            annualizedRate := weightedCallDiscount * 365 / (lockupDays : ℝ)
            fairValue := (spotPrice : ℝ) - weightedCallPrice
            callDiscount := weightedCallDiscount
            putDiscount := weightedPutDiscount
            impliedVolatility := weightedVolatility
            theoreticalCallPrice := weightedCallPrice
            theoreticalPutPrice := weightedPutPrice
            atmCalculations := calculations
            totalContracts := calculations.length
            rawShortTermContracts := rawShortTermContracts
            rawLongTermContracts := rawLongTermContracts }

/-- Embedding of `calculateDiscountFromOptions` from the calculator module (`part_007`,
lines 142-280): the single-expiry fallback entry point.  Validation warnings
are console-only in the source and do not affect the result; the per-contract
volatility selection is `fallbackVolatility`. -/
noncomputable def calculateDiscountFromOptions
    (optionsData : List OptionData) (spotPrice : ℚ) (lockupDays : ℚ)
    (riskFreeRate : ℝ) : Except CalcError DiscountCalculation :=
  if optionsData.isEmpty then
    .error .noOptionsData
  else
    let timeToExpiry := lockupDays / 365
    let sortedByATM :=
      (List.insertionSort (fun a b => a.2 ≤ b.2)
        (optionsData.map (fun o => (o, |o.strike - spotPrice|)))).take 5
    if sortedByATM.isEmpty then
      .error .noSuitableATM
    else
      let calculations : List ATMCalculation := sortedByATM.map (fun contract =>
        let impliedVolatility := fallbackVolatility contract.1.impliedVol timeToExpiry
        let theoreticalCallPrice := blackScholesCall (spotPrice : ℝ) (contract.1.strike : ℝ)
          (timeToExpiry : ℝ) riskFreeRate impliedVolatility
        let theoreticalPutPrice := blackScholesPut (spotPrice : ℝ) (contract.1.strike : ℝ)
          (timeToExpiry : ℝ) riskFreeRate impliedVolatility
        { strike := contract.1.strike
          callDiscount := theoreticalCallPrice / (spotPrice : ℝ) * 100
          putDiscount := theoreticalPutPrice / (spotPrice : ℝ) * 100
          theoreticalCallPrice := theoreticalCallPrice
          theoreticalPutPrice := theoreticalPutPrice
          impliedVolatility := impliedVolatility * 100
          weight := calculateLiquidityScore contract.1
          atmDistance := contract.2
          expiry := contract.1.expiry })
      let totalWeight := (calculations.map (fun c => c.weight)).sum
      let weightedCallDiscount :=
        ((calculations.map (fun c => c.callDiscount * (c.weight : ℝ))).sum) / (totalWeight : ℝ)
      let weightedPutDiscount :=
        ((calculations.map (fun c => c.putDiscount * (c.weight : ℝ))).sum) / (totalWeight : ℝ)
      let weightedCallPrice :=
        ((calculations.map (fun c => c.theoreticalCallPrice * (c.weight : ℝ))).sum) / (totalWeight : ℝ)
      let weightedPutPrice :=
        ((calculations.map (fun c => c.theoreticalPutPrice * (c.weight : ℝ))).sum) / (totalWeight : ℝ)
      let weightedVolatility :=
        ((calculations.map (fun c => c.impliedVolatility * (c.weight : ℝ))).sum) / (totalWeight : ℝ)
      .ok { annualizedRate := weightedCallDiscount * 365 / (lockupDays : ℝ)
            fairValue := (spotPrice : ℝ) - weightedCallPrice
            discount := weightedCallDiscount
            method := "black-scholes-weighted"
            callDiscount := weightedCallDiscount
            putDiscount := weightedPutDiscount
            impliedVolatility := weightedVolatility
            theoreticalCallPrice := weightedCallPrice
            theoreticalPutPrice := weightedPutPrice
            atmCalculations := calculations
            totalContracts := sortedByATM.length }

/-- A short-term sample contract for the C7 witness (strike 90). -/
def sampleContractA : OptionData :=
  { strike := 90, callPrice := 10, putPrice := 10, expiry := "A", impliedVol := 50 }

/-- A long-term sample contract for the C7 witness (disjoint strike 100). -/
def sampleContractB : OptionData :=
  { strike := 100, callPrice := 11, putPrice := 12, expiry := "B", impliedVol := 55 }

/-- Dual-expiry sample data whose two legs have disjoint strike sets. -/
def sampleDisjointData : DualExpiryData :=
  { shortTerm := { expiry := "A", timeToExpiry := 1/4, impliedVol := 50,
                   optionsData := [sampleContractA] }
    longTerm := { expiry := "B", timeToExpiry := 1/2, impliedVol := 55,
                  optionsData := [sampleContractB] }
    strategy := ExtrapolationStrategy.interpolation
    targetTimeToExpiry := 1/3 }

/-- Short-term sample contract for the C10 witness (strike 100). -/
def sampleContractC : OptionData :=
  { strike := 100, callPrice := 10, putPrice := 10, expiry := "C", impliedVol := 50 }

/-- Long-term sample contract for the C10 witness (same strike 100). -/
def sampleContractD : OptionData :=
  { strike := 100, callPrice := 12, putPrice := 11, expiry := "D", impliedVol := 55 }

/-- Dual-expiry sample data whose two legs share strike 100. -/
def sampleDualData : DualExpiryData :=
  { shortTerm := { expiry := "C", timeToExpiry := 1/4, impliedVol := 50,
                   optionsData := [sampleContractC] }
    longTerm := { expiry := "D", timeToExpiry := 1/2, impliedVol := 55,
                  optionsData := [sampleContractD] }
    strategy := ExtrapolationStrategy.interpolation
    targetTimeToExpiry := 1/3 }

/-- The per-strike results of the dual-expiry computation on the sample data. -/
noncomputable def sampleDualCalcList : List ATMCalculation :=
  (calculateDiscountFromDualExpiry sampleDualData 100 120 0).toOption.elim []
    (fun res => res.atmCalculations)

/-- A contract whose quoted implied volatility is `0` (structurally broken). -/
def zeroIVContract : OptionData :=
  { strike := 100, callPrice := 10, putPrice := 10, expiry := "Z", impliedVol := 0 }

/-- The adjacent-pair scan of `findOptimalExpiryPair` (`part_006`, lines
277-289): returns the first adjacent pair of the list bracketing the target. -/
def findBracket (targetDate : ℤ) : List ℤ → Option (ℤ × ℤ)
  | a :: b :: rest =>
      if a ≤ targetDate ∧ targetDate ≤ b then some (a, b)
      else findBracket targetDate (b :: rest)
  | _ => none

/-- The first two elements of a list (`sortedExpiries.slice(0, 2)`). -/
def firstTwo : List ℤ → Option (ℤ × ℤ)
  | a :: b :: _ => some (a, b)
  | _ => none

/-- The last two elements of a list (`sortedExpiries.slice(-2)`). -/
def lastTwo : List ℤ → Option (ℤ × ℤ)
  | [] => none
  | [_] => none
  | [a, b] => some (a, b)
  | _ :: b :: c :: rest => lastTwo (b :: c :: rest)

/-- Embedding of `findOptimalExpiryPair` from the market-data module (`part_006`, lines
257-316), with expiry dates modelled as integer timestamps: sort ascending;
scan adjacent pairs for a bracket (INTERPOLATION); otherwise return the last
two when the target exceeds the last expiry (EXTRAPOLATION), and the first
two otherwise (BOUNDED_EXTRAPOLATION); `none` with fewer than two expiries. -/
def findOptimalExpiryPair (expiryDates : List ℤ) (targetDate : ℤ) :
    Option (ℤ × ℤ × ExtrapolationStrategy) :=
  let sortedExpiries := List.insertionSort (· ≤ ·) expiryDates
  if sortedExpiries.length < 2 then none
  else
    match findBracket targetDate sortedExpiries with
    | some (shortExp, longExp) => some (shortExp, longExp, .interpolation)
    | none =>
      match lastTwo sortedExpiries, firstTwo sortedExpiries with
      | some (lastShort, lastLong), some (firstShort, firstLong) =>
          if lastLong < targetDate then some (lastShort, lastLong, .extrapolation)
          else some (firstShort, firstLong, .boundedExtrapolation)
      | _, _ => none

/-- On any non-positive input the extrapolator takes its early-return branch
and hands back `max shortTermVol longTermVol` instead of an error. -/
theorem calculateExtrapolatedVolatility_invalid_eq
    (sv st lv lt tt : ℝ) (strategy : ExtrapolationStrategy)
    (h : sv ≤ 0 ∨ lv ≤ 0 ∨ st ≤ 0 ∨ lt ≤ 0 ∨ tt ≤ 0) :
    calculateExtrapolatedVolatility sv st lv lt tt strategy = max sv lv := by
  unfold calculateExtrapolatedVolatility
  rw [if_pos h]

/-- On all-positive inputs the guard branch is skipped. -/
theorem calculateExtrapolatedVolatility_valid_eq
    (sv st lv lt tt : ℝ) (strategy : ExtrapolationStrategy)
    (hsv : 0 < sv) (hlv : 0 < lv) (hst : 0 < st) (hlt : 0 < lt) (htt : 0 < tt) :
    calculateExtrapolatedVolatility sv st lv lt tt strategy =
      (let shortTermVariance := sv * sv * st
       let longTermVariance := lv * lv * lt
       let targetVariance :=
         match strategy with
         | .interpolation =>
             shortTermVariance + (longTermVariance - shortTermVariance) *
               ((tt - st) / (lt - st))
         | .extrapolation =>
             if 1.0 ≤ tt then
               (Real.sqrt (longTermVariance / lt) * (1 + 0.05 * Real.log tt)) *
                 (Real.sqrt (longTermVariance / lt) * (1 + 0.05 * Real.log tt)) * tt
             else
               longTermVariance + (longTermVariance - shortTermVariance) / (lt - st) * (tt - lt)
         | .boundedExtrapolation =>
             (shortTermVariance + (longTermVariance - shortTermVariance) / (lt - st) * (tt - st)) *
               min 1.0 (2.0 / max 1.0 (tt - st))
       min (max (Real.sqrt (max (0.01 * tt) (min (4.0 * tt) targetVariance) / tt)) 0.10) 3.0) := by
  unfold calculateExtrapolatedVolatility
  rw [if_neg]
  push_neg
  exact ⟨hsv, hlv, hst, hlt, htt⟩

/-- Claim C3: for every strategy and all positive vols and tenors, the final
returned volatility lies within `[0.10, 3.0]` (the final sanity clamp). -/
theorem extrapolatedVolatility_final_clamp
    (sv st lv lt tt : ℝ) (strategy : ExtrapolationStrategy)
    (hsv : 0 < sv) (hlv : 0 < lv) (hst : 0 < st) (hlt : 0 < lt) (htt : 0 < tt) :
    0.10 ≤ calculateExtrapolatedVolatility sv st lv lt tt strategy ∧
      calculateExtrapolatedVolatility sv st lv lt tt strategy ≤ 3.0 := by
  rw [calculateExtrapolatedVolatility_valid_eq sv st lv lt tt strategy hsv hlv hst hlt htt]
  refine ⟨le_min (le_max_right _ _) (by norm_num), min_le_right _ _⟩

/-- Witness for C3 at the spec's clamp-enforcement scenario
`shortVol = longVol = 0.01, shortT = 0.01, longT = 0.02, targetT = 50`. -/
theorem extrapolatedVolatility_final_clamp_witness :
    0.10 ≤ calculateExtrapolatedVolatility 0.01 0.01 0.01 0.02 50
        ExtrapolationStrategy.extrapolation ∧
      calculateExtrapolatedVolatility 0.01 0.01 0.01 0.02 50
        ExtrapolationStrategy.extrapolation ≤ 3.0 :=
  extrapolatedVolatility_final_clamp 0.01 0.01 0.01 0.02 50
    ExtrapolationStrategy.extrapolation (by norm_num) (by norm_num) (by norm_num)
    (by norm_num) (by norm_num)

/-- Counterexample to claim C4: at the non-positive input
`shortVol = -1` the extrapolator does not fail; it returns the numeric
fallback `max (-1) (1/2) = 1/2`. -/
theorem extrapolatedVolatility_no_reject_counterexample :
    calculateExtrapolatedVolatility (-1) (1/4) (1/2) 1 (1/2)
      ExtrapolationStrategy.interpolation = 1/2 := by
  rw [calculateExtrapolatedVolatility_invalid_eq _ _ _ _ _ _ (Or.inl (by norm_num))]
  norm_num

/-- Claim C4 (amended): the extrapolator does not reject non-positive inputs
with an error; whenever any of `shortVol, longVol, shortT, longT, targetT` is
non-positive it returns the fallback value `max shortVol longVol`. -/
theorem extrapolatedVolatility_invalid_fallback
    (sv st lv lt tt : ℝ) (strategy : ExtrapolationStrategy)
    (h : sv ≤ 0 ∨ lv ≤ 0 ∨ st ≤ 0 ∨ lt ≤ 0 ∨ tt ≤ 0) :
    calculateExtrapolatedVolatility sv st lv lt tt strategy = max sv lv :=
  calculateExtrapolatedVolatility_invalid_eq sv st lv lt tt strategy h

/-- Witness for the amended C4 at a concrete non-positive input. -/
theorem extrapolatedVolatility_invalid_fallback_witness :
    calculateExtrapolatedVolatility 0 (1/4) (3/5) 1 2
      ExtrapolationStrategy.extrapolation = max 0 (3/5) :=
  extrapolatedVolatility_invalid_fallback 0 (1/4) (3/5) 1 2
    ExtrapolationStrategy.extrapolation (Or.inl le_rfl)

/-- Evaluation of the extrapolator on valid inputs in the `INTERPOLATION` case. -/
theorem calculateExtrapolatedVolatility_interpolation_eq
    (sv st lv lt tt : ℝ)
    (hsv : 0 < sv) (hlv : 0 < lv) (hst : 0 < st) (hlt : 0 < lt) (htt : 0 < tt) :
    calculateExtrapolatedVolatility sv st lv lt tt ExtrapolationStrategy.interpolation =
      min (max (Real.sqrt (max (0.01 * tt) (min (4.0 * tt)
        (sv * sv * st + (lv * lv * lt - sv * sv * st) * ((tt - st) / (lt - st)))) / tt)) 0.10) 3.0 := by
  rw [calculateExtrapolatedVolatility_valid_eq sv st lv lt tt _ hsv hlv hst hlt htt]

/-- Evaluation of the extrapolator on valid inputs in the `EXTRAPOLATION` case. -/
theorem calculateExtrapolatedVolatility_extrapolation_eq
    (sv st lv lt tt : ℝ)
    (hsv : 0 < sv) (hlv : 0 < lv) (hst : 0 < st) (hlt : 0 < lt) (htt : 0 < tt) :
    calculateExtrapolatedVolatility sv st lv lt tt ExtrapolationStrategy.extrapolation =
      min (max (Real.sqrt (max (0.01 * tt) (min (4.0 * tt)
        (if 1.0 ≤ tt then
          (Real.sqrt (lv * lv * lt / lt) * (1 + 0.05 * Real.log tt)) *
            (Real.sqrt (lv * lv * lt / lt) * (1 + 0.05 * Real.log tt)) * tt
         else
          lv * lv * lt + (lv * lv * lt - sv * sv * st) / (lt - st) * (tt - lt))) / tt)) 0.10) 3.0 := by
  rw [calculateExtrapolatedVolatility_valid_eq sv st lv lt tt _ hsv hlv hst hlt htt]

/-- Evaluation of the extrapolator on valid inputs in the `BOUNDED_EXTRAPOLATION` case. -/
theorem calculateExtrapolatedVolatility_bounded_eq
    (sv st lv lt tt : ℝ)
    (hsv : 0 < sv) (hlv : 0 < lv) (hst : 0 < st) (hlt : 0 < lt) (htt : 0 < tt) :
    calculateExtrapolatedVolatility sv st lv lt tt ExtrapolationStrategy.boundedExtrapolation =
      min (max (Real.sqrt (max (0.01 * tt) (min (4.0 * tt)
        ((sv * sv * st + (lv * lv * lt - sv * sv * st) / (lt - st) * (tt - st)) *
          min 1.0 (2.0 / max 1.0 (tt - st)))) / tt)) 0.10) 3.0 := by
  rw [calculateExtrapolatedVolatility_valid_eq sv st lv lt tt _ hsv hlv hst hlt htt]

/-- Counterexample to claim C5: with both anchor vols `0.05`, positive tenors
`shortT = 0.25 ≤ targetT = 0.5 ≤ longT = 1`, the `INTERPOLATION` result is the
clamped value `0.1`, strictly above `max shortVol longVol = 0.05`. -/
theorem interpolation_outside_range_counterexample :
    calculateExtrapolatedVolatility 0.05 0.25 0.05 1 0.5
        ExtrapolationStrategy.interpolation = 0.1 ∧
      max (0.05 : ℝ) 0.05 < 0.1 := by
  constructor
  · rw [calculateExtrapolatedVolatility_interpolation_eq 0.05 0.25 0.05 1 0.5
      (by norm_num) (by norm_num) (by norm_num) (by norm_num) (by norm_num)]
    have h1 : (0.05 : ℝ) * 0.05 * 0.25 +
        ((0.05 : ℝ) * 0.05 * 1 - (0.05 : ℝ) * 0.05 * 0.25) *
          (((0.5 : ℝ) - 0.25) / ((1 : ℝ) - 0.25)) = 1/800 := by norm_num
    rw [h1]
    have h2 : min ((4.0 : ℝ) * 0.5) (1/800) = 1/800 := min_eq_right (by norm_num)
    rw [h2]
    have h3 : max ((0.01 : ℝ) * 0.5) (1/800) = 1/200 := by
      rw [max_eq_left (by norm_num)]; norm_num
    rw [h3]
    have h4 : (1/200 : ℝ) / 0.5 = 1/100 := by norm_num
    rw [h4]
    have h5 : Real.sqrt (1/100 : ℝ) = 1/10 := by
      rw [show (1/100 : ℝ) = (1/10)^2 by norm_num, Real.sqrt_sq (by norm_num)]
    rw [h5]
    rw [max_eq_left (by norm_num), min_eq_left (by norm_num)]
    norm_num
  · norm_num

/-- Claim C5 (amended): for `INTERPOLATION` with `shortT ≤ targetT ≤ longT` and
both anchor volatilities inside the non-clamping band `[0.1, 2.0]`, the target
volatility lies between `min shortVol longVol` and `max shortVol longVol`. -/
theorem interpolation_vol_between
    (sv st lv lt tt : ℝ)
    (hst : 0 < st) (h1 : st ≤ tt) (h2 : tt ≤ lt) (hstlt : st < lt)
    (hsv1 : 0.1 ≤ sv) (hsv2 : sv ≤ 2) (hlv1 : 0.1 ≤ lv) (hlv2 : lv ≤ 2) :
    min sv lv ≤ calculateExtrapolatedVolatility sv st lv lt tt
        ExtrapolationStrategy.interpolation ∧
      calculateExtrapolatedVolatility sv st lv lt tt
        ExtrapolationStrategy.interpolation ≤ max sv lv := by
  have hsv0 : 0 < sv := by linarith
  have hlv0 : 0 < lv := by linarith
  have htt0 : 0 < tt := lt_of_lt_of_le hst h1
  have hlt0 : 0 < lt := lt_trans hst hstlt
  rw [calculateExtrapolatedVolatility_interpolation_eq sv st lv lt tt hsv0 hlv0 hst hlt0 htt0]
  have hden : (0 : ℝ) < lt - st := sub_pos.mpr hstlt
  set f := (tt - st) / (lt - st) with hf
  set m := min sv lv with hm
  set M := max sv lv with hM
  have hm0 : (0.1 : ℝ) ≤ m := le_min hsv1 hlv1
  have hM2 : M ≤ 2 := max_le hsv2 hlv2
  have hmpos : (0 : ℝ) ≤ m := by linarith
  have hMpos : (0 : ℝ) ≤ M := le_trans hmpos min_le_max
  have hf0 : 0 ≤ f := div_nonneg (by linarith) (le_of_lt hden)
  have hf1 : f ≤ 1 := by rw [hf, div_le_one hden]; linarith
  have htt_eq : tt = st + f * (lt - st) := by
    have hc : f * (lt - st) = tt - st := div_mul_cancel₀ _ (ne_of_gt hden)
    linarith
  set V := sv * sv * st + (lv * lv * lt - sv * sv * st) * f with hV
  have hsvM : sv * sv ≤ M * M := mul_self_le_mul_self (le_of_lt hsv0) (le_max_left _ _)
  have hlvM : lv * lv ≤ M * M := mul_self_le_mul_self (le_of_lt hlv0) (le_max_right _ _)
  have hmsv : m * m ≤ sv * sv := mul_self_le_mul_self hmpos (min_le_left _ _)
  have hmlv : m * m ≤ lv * lv := mul_self_le_mul_self hmpos (min_le_right _ _)
  have hub : V ≤ M * M * tt := by
    have e1 : M * M * tt - V =
        (1 - f) * (M * M - sv * sv) * st + f * (M * M - lv * lv) * lt := by
      rw [hV, htt_eq]; ring
    have t1 : 0 ≤ (1 - f) * (M * M - sv * sv) * st :=
      mul_nonneg (mul_nonneg (by linarith) (by linarith)) (le_of_lt hst)
    have t2 : 0 ≤ f * (M * M - lv * lv) * lt :=
      mul_nonneg (mul_nonneg hf0 (by linarith)) (le_of_lt hlt0)
    linarith
  have hlb : m * m * tt ≤ V := by
    have e2 : V - m * m * tt =
        (1 - f) * (sv * sv - m * m) * st + f * (lv * lv - m * m) * lt := by
      rw [hV, htt_eq]; ring
    have t1 : 0 ≤ (1 - f) * (sv * sv - m * m) * st :=
      mul_nonneg (mul_nonneg (by linarith) (by linarith)) (le_of_lt hst)
    have t2 : 0 ≤ f * (lv * lv - m * m) * lt :=
      mul_nonneg (mul_nonneg hf0 (by linarith)) (le_of_lt hlt0)
    linarith
  have hM4 : M * M ≤ 4.0 := by
    have h22 : M * M ≤ 2 * 2 := mul_self_le_mul_self hMpos hM2
    linarith
  have hm001 : (0.01 : ℝ) ≤ m * m := by
    have h11 : (0.1 : ℝ) * 0.1 ≤ m * m := mul_le_mul hm0 hm0 (by norm_num) hmpos
    linarith
  have hVub : V ≤ 4.0 * tt :=
    le_trans hub (mul_le_mul_of_nonneg_right hM4 (le_of_lt htt0))
  have hVlb : (0.01 : ℝ) * tt ≤ V :=
    le_trans (mul_le_mul_of_nonneg_right hm001 (le_of_lt htt0)) hlb
  rw [min_eq_right hVub, max_eq_right hVlb]
  have hdivlb : m * m ≤ V / tt := (le_div_iff₀ htt0).mpr hlb
  have hdivub : V / tt ≤ M * M := (div_le_iff₀ htt0).mpr hub
  have hslb : m ≤ Real.sqrt (V / tt) := by
    have h := Real.sqrt_le_sqrt hdivlb
    rwa [Real.sqrt_mul_self hmpos] at h
  have hsub : Real.sqrt (V / tt) ≤ M := by
    have h := Real.sqrt_le_sqrt hdivub
    rwa [Real.sqrt_mul_self hMpos] at h
  rw [max_eq_left (by linarith), min_eq_left (by linarith)]
  exact ⟨hslb, hsub⟩

/-- Witness for the amended C5 at `shortVol = 0.4, longVol = 0.5`,
`shortT = 0.25, longT = 1, targetT = 0.5`. -/
theorem interpolation_vol_between_witness :
    min (0.4 : ℝ) 0.5 ≤ calculateExtrapolatedVolatility 0.4 0.25 0.5 1 0.5
        ExtrapolationStrategy.interpolation ∧
      calculateExtrapolatedVolatility 0.4 0.25 0.5 1 0.5
        ExtrapolationStrategy.interpolation ≤ max (0.4 : ℝ) 0.5 :=
  interpolation_vol_between 0.4 0.25 0.5 1 0.5 (by norm_num) (by norm_num)
    (by norm_num) (by norm_num) (by norm_num) (by norm_num) (by norm_num) (by norm_num)

/-- Counterexample to claim C6: `EXTRAPOLATION` at `targetT = longT = 0.5 < 1`
with `longVol = 0.05` returns the clamped value `0.1`, not `longVol` exactly. -/
theorem extrapolation_boundary_counterexample :
    calculateExtrapolatedVolatility 0.05 0.25 0.05 0.5 0.5
        ExtrapolationStrategy.extrapolation = 0.1 ∧
      (0.1 : ℝ) ≠ 0.05 := by
  constructor
  · rw [calculateExtrapolatedVolatility_extrapolation_eq 0.05 0.25 0.05 0.5 0.5
      (by norm_num) (by norm_num) (by norm_num) (by norm_num) (by norm_num)]
    rw [if_neg (by norm_num : ¬(1.0 : ℝ) ≤ 0.5)]
    have h1 : (0.05 : ℝ) * 0.05 * 0.5 +
        ((0.05 : ℝ) * 0.05 * 0.5 - (0.05 : ℝ) * 0.05 * 0.25) / ((0.5 : ℝ) - 0.25) *
          ((0.5 : ℝ) - 0.5) = 1/800 := by norm_num
    rw [h1]
    have h2 : min ((4.0 : ℝ) * 0.5) (1/800) = 1/800 := min_eq_right (by norm_num)
    rw [h2]
    have h3 : max ((0.01 : ℝ) * 0.5) (1/800) = 1/200 := by
      rw [max_eq_left (by norm_num)]; norm_num
    rw [h3]
    have h4 : (1/200 : ℝ) / 0.5 = 1/100 := by norm_num
    rw [h4]
    have h5 : Real.sqrt (1/100 : ℝ) = 1/10 := by
      rw [show (1/100 : ℝ) = (1/10)^2 by norm_num, Real.sqrt_sq (by norm_num)]
    rw [h5]
    rw [max_eq_left (by norm_num), min_eq_left (by norm_num)]
    norm_num
  · norm_num

/-- Claim C6 (amended): `EXTRAPOLATION` at `targetT = longT` with `longT < 1`
(so the long-horizon enhancement does not fire) returns `longVol` exactly,
provided `longVol` lies in the non-clamping band `[0.1, 2.0]`. -/
theorem extrapolation_boundary_exact
    (sv st lv lt : ℝ)
    (hsv : 0 < sv) (hst : 0 < st) (hstlt : st < lt) (hlt1 : lt < 1)
    (hlv1 : 0.1 ≤ lv) (hlv2 : lv ≤ 2) :
    calculateExtrapolatedVolatility sv st lv lt lt
      ExtrapolationStrategy.extrapolation = lv := by
  have hlv0 : 0 < lv := by linarith
  have hlt0 : 0 < lt := lt_trans hst hstlt
  rw [calculateExtrapolatedVolatility_extrapolation_eq sv st lv lt lt hsv hlv0 hst hlt0 hlt0]
  rw [if_neg (by linarith : ¬(1.0 : ℝ) ≤ lt)]
  have hlin : lv * lv * lt + (lv * lv * lt - sv * sv * st) / (lt - st) * (lt - lt) =
      lv * lv * lt := by
    rw [sub_self, mul_zero, add_zero]
  rw [hlin]
  have hub : lv * lv * lt ≤ 4.0 * lt := by
    have h22 : lv * lv ≤ 2 * 2 := mul_self_le_mul_self (le_of_lt hlv0) hlv2
    have h4 := mul_le_mul_of_nonneg_right h22 (le_of_lt hlt0)
    linarith
  have hlb : (0.01 : ℝ) * lt ≤ lv * lv * lt := by
    have h11 : (0.1 : ℝ) * 0.1 ≤ lv * lv := mul_le_mul hlv1 hlv1 (by norm_num) (le_of_lt hlv0)
    have h01 := mul_le_mul_of_nonneg_right h11 (le_of_lt hlt0)
    linarith
  rw [min_eq_right hub, max_eq_right hlb]
  have hdiv : lv * lv * lt / lt = lv * lv := by
    field_simp
  rw [hdiv, Real.sqrt_mul_self (le_of_lt hlv0)]
  rw [max_eq_left (by linarith), min_eq_left (by linarith)]

/-- Witness for the amended C6 at
`shortVol = 0.3, shortT = 0.25, longVol = 0.5, longT = targetT = 0.5`. -/
theorem extrapolation_boundary_exact_witness :
    calculateExtrapolatedVolatility 0.3 0.25 0.5 0.5 0.5
      ExtrapolationStrategy.extrapolation = 0.5 :=
  extrapolation_boundary_exact 0.3 0.25 0.5 0.5 (by norm_num) (by norm_num)
    (by norm_num) (by norm_num) (by norm_num) (by norm_num)

/-- The approximation is exactly complementary away from `0`:
`N(x) + N(-x) = 1` for `x ≠ 0` (the sign factor flips, everything else
depends only on `|x|`). -/
theorem cumulativeNormalDistribution_add_neg (x : ℝ) (hx : x ≠ 0) :
    cumulativeNormalDistribution x + cumulativeNormalDistribution (-x) = 1 := by
  rcases hx.lt_or_lt with h | h
  · simp only [cumulativeNormalDistribution]
    rw [if_pos h, if_neg (by linarith : ¬-x < 0), abs_neg]
    ring
  · simp only [cumulativeNormalDistribution]
    rw [if_neg (by linarith : ¬x < 0), if_pos (by linarith : -x < 0), abs_neg]
    ring

/-- At `0` the approximation misses `1/2` by exactly `5·10⁻¹⁰`: the five
Abramowitz-Stegun coefficients sum to `0.999999999`, not `1`. -/
theorem cumulativeNormalDistribution_zero :
    cumulativeNormalDistribution 0 = 0.5 + 5e-10 := by
  simp only [cumulativeNormalDistribution]
  rw [if_neg (by norm_num : ¬(0:ℝ) < 0)]
  rw [abs_zero, zero_div]
  norm_num

/-- Claim C2 (amended): for positive `S, K, T, sigma`, whenever neither
`d1` nor `d2` is exactly `0`, the pricer satisfies put-call parity
`Call - Put = S - K·e^(-rT)` exactly (hence well within tolerance `1e-6`). -/
theorem put_call_parity
    (S K T r sigma : ℝ) (hS : 0 < S) (hK : 0 < K) (hT : 0 < T) (hsig : 0 < sigma)
    (hd1 : (Real.log (S / K) + (r + 0.5 * sigma * sigma) * T) / (sigma * Real.sqrt T) ≠ 0)
    (hd2 : (Real.log (S / K) + (r + 0.5 * sigma * sigma) * T) / (sigma * Real.sqrt T) -
      sigma * Real.sqrt T ≠ 0) :
    blackScholesCall S K T r sigma - blackScholesPut S K T r sigma =
      S - K * Real.exp (-r * T) := by
  have h1 := cumulativeNormalDistribution_add_neg _ hd1
  have h2 := cumulativeNormalDistribution_add_neg _ hd2
  simp only [blackScholesCall, blackScholesPut]
  linear_combination S * h1 - K * Real.exp (-r * T) * h2

/-- Witness for the amended C2 at `S = K = 1, T = 1, r = 0, sigma = 2`
(`d1 = 1`, `d2 = -1`). -/
theorem put_call_parity_witness :
    blackScholesCall 1 1 1 0 2 - blackScholesPut 1 1 1 0 2 =
      1 - 1 * Real.exp (-0 * 1) :=
  put_call_parity 1 1 1 0 2 (by norm_num) (by norm_num) (by norm_num) (by norm_num)
    (by norm_num [Real.log_one, Real.sqrt_one])
    (by norm_num [Real.log_one, Real.sqrt_one])

/-- The put-call parity defect of the pricer, expressed through the
complementarity defects of the approximate normal CDF at `d1` and `d2`. -/
theorem blackScholes_parity_gap (S K T r sigma : ℝ) :
    blackScholesCall S K T r sigma - blackScholesPut S K T r sigma -
      (S - K * Real.exp (-r * T)) =
      S * (cumulativeNormalDistribution (bsD1 S K T r sigma) +
            cumulativeNormalDistribution (-bsD1 S K T r sigma) - 1) -
        K * Real.exp (-r * T) *
          (cumulativeNormalDistribution (bsD2 S K T r sigma) +
            cumulativeNormalDistribution (-bsD2 S K T r sigma) - 1) := by
  simp only [blackScholesCall, blackScholesPut, bsD1, bsD2]
  ring

/-- Counterexample to claim C2 as stated: at the valid input
`S = K = 10^7, T = 1, r = 0.02, sigma = 0.2` we get `d2 = 0` exactly, where the
approximate CDF returns `0.5 + 5e-10` for both `N(d2)` and `N(-d2)`; the parity
defect is `e^(-0.02)/100 ≈ 0.0098`, far above the claimed `1e-6` tolerance. -/
theorem put_call_parity_tolerance_counterexample :
    |blackScholesCall 10000000 10000000 1 (1/50) (1/5) -
        blackScholesPut 10000000 10000000 1 (1/50) (1/5) -
        (10000000 - 10000000 * Real.exp (-(1/50) * 1))| > 1e-6 := by
  rw [blackScholes_parity_gap]
  have h1v : bsD1 10000000 10000000 1 (1/50) (1/5) = 1/5 := by
    unfold bsD1
    rw [show ((10000000 : ℝ) / 10000000) = 1 by norm_num, Real.log_one, Real.sqrt_one]
    norm_num
  have h2v : bsD2 10000000 10000000 1 (1/50) (1/5) = 0 := by
    unfold bsD2
    rw [h1v, Real.sqrt_one]
    norm_num
  rw [h1v, h2v]
  simp only [neg_zero]
  rw [cumulativeNormalDistribution_add_neg (1/5 : ℝ) (by norm_num)]
  rw [cumulativeNormalDistribution_zero]
  have key : (10000000 : ℝ) * (1 - 1) -
      10000000 * Real.exp (-(1/50) * 1) * (0.5 + 5e-10 + (0.5 + 5e-10) - 1) =
      -(Real.exp (-(1/50) * 1) / 100) := by
    norm_num
    ring
  rw [key, abs_neg, abs_of_nonneg (by positivity)]
  have hexp : (49/50 : ℝ) ≤ Real.exp (-(1/50) * 1) := by
    have h := Real.add_one_le_exp (-(1/50) * 1 : ℝ)
    linarith
  have : (1e-6 : ℝ) < 49/5000 := by norm_num
  linarith

/-- Counterexample to claim C9: at `targetT = 0.1 ≤ 1` the fallback path uses
the contract's implied vol `0.5` unchanged (the synthetic anchors only apply
for `targetT > 0.25`), while the claimed interpolation over the synthetic
anchor pair `(0.5, 0.25)`, `(0.55, 1.0)` yields `√(29/200) ≈ 0.381 ≠ 0.5`. -/
theorem singleExpiry_fallback_counterexample :
    fallbackVolatility 50 (1/10) = 1/2 ∧
      calculateExtrapolatedVolatility 0.5 0.25 0.55 1 (1/10)
        ExtrapolationStrategy.interpolation ≠ 1/2 := by
  constructor
  · simp only [fallbackVolatility]
    norm_num
  · rw [calculateExtrapolatedVolatility_interpolation_eq 0.5 0.25 0.55 1 (1/10)
      (by norm_num) (by norm_num) (by norm_num) (by norm_num) (by norm_num)]
    have h1 : (0.5 : ℝ) * 0.5 * 0.25 +
        ((0.55 : ℝ) * 0.55 * 1 - (0.5 : ℝ) * 0.5 * 0.25) *
          (((1/10 : ℝ) - 0.25) / ((1 : ℝ) - 0.25)) = 29/2000 := by norm_num
    rw [h1]
    have h2 : min ((4.0 : ℝ) * (1/10)) (29/2000) = 29/2000 := min_eq_right (by norm_num)
    rw [h2]
    have h3 : max ((0.01 : ℝ) * (1/10)) (29/2000) = 29/2000 := max_eq_right (by norm_num)
    rw [h3]
    have h4 : (29/2000 : ℝ) / (1/10) = 29/200 := by norm_num
    rw [h4]
    have h5 : (0.10 : ℝ) ≤ Real.sqrt (29/200) := by
      have hm : Real.sqrt ((0.10 : ℝ)^2) ≤ Real.sqrt (29/200) := Real.sqrt_le_sqrt (by norm_num)
      rwa [Real.sqrt_sq (by norm_num : (0:ℝ) ≤ 0.10)] at hm
    have h6 : Real.sqrt (29/200 : ℝ) ≤ 3.0 := by
      have hm : Real.sqrt (29/200 : ℝ) ≤ Real.sqrt ((3.0 : ℝ)^2) := Real.sqrt_le_sqrt (by norm_num)
      rwa [Real.sqrt_sq (by norm_num : (0:ℝ) ≤ 3.0)] at hm
    rw [max_eq_left h5, min_eq_left h6]
    intro hEq
    have h7 : (29/200 : ℝ) = (1/2)^2 := by
      rw [← hEq, Real.sq_sqrt (by norm_num : (0:ℝ) ≤ 29/200)]
    norm_num at h7

/-- Claim C9 (amended): in the single-expiry fallback path with a nonzero
implied vol, the synthetic anchor pair `shortVol = iv, shortT = 0.25,
longVol = iv × 1.1, longT = 1.0` drives the volatility only for tenors in
`(0.25, 1.0]`, through the plain variance interpolation
`varianceExtrapolation`; for `targetT ≤ 0.25` or `targetT > 1.0` the
contract's implied vol is used unchanged. -/
theorem fallbackVolatility_spec (iv T : ℚ) (hiv : iv ≠ 0) :
    ((0.25 : ℚ) < T → T ≤ 1.0 →
      fallbackVolatility iv T =
        varianceExtrapolation (((iv : ℚ) / 100 : ℚ) : ℝ) 0.25
          ((((iv : ℚ) / 100 : ℚ) : ℝ) * 1.1) 1.0 (T : ℝ)) ∧
    (¬((0.25 : ℚ) < T ∧ T ≤ 1.0) → fallbackVolatility iv T = (((iv : ℚ) / 100 : ℚ) : ℝ)) := by
  have hne : (iv / 100 : ℚ) ≠ 0 := by
    simp [div_eq_zero_iff, hiv]
  constructor
  · intro h1 h2
    simp only [fallbackVolatility, if_neg hne, if_pos h1, if_pos h2]
  · intro h
    by_cases h1 : (0.25 : ℚ) < T
    · have h2 : ¬ T ≤ 1.0 := fun hc => h ⟨h1, hc⟩
      simp only [fallbackVolatility, if_neg hne, if_pos h1, if_neg h2]
    · simp only [fallbackVolatility, if_neg hne, if_neg h1]

/-- Witness for the amended C9 at `iv = 40 (%), targetT = 0.5`. -/
theorem fallbackVolatility_spec_witness :
    fallbackVolatility 40 (1/2) =
      varianceExtrapolation ((((40 : ℚ) : ℚ) / 100 : ℚ) : ℝ) 0.25
        (((((40 : ℚ) : ℚ) / 100 : ℚ) : ℝ) * 1.1) 1.0 ((1/2 : ℚ) : ℝ) :=
  (fallbackVolatility_spec 40 (1/2) (by norm_num)).1 (by norm_num) (by norm_num)

/-- Claim C7: two contract lists with disjoint strike sets make the
dual-expiry computation fail with the no-common-strikes error, producing no
`DiscountCalculation`. -/
theorem dualExpiry_disjoint_strikes_error
    (d : DualExpiryData) (spotPrice lockupDays : ℚ) (riskFreeRate : ℝ)
    (h : ∀ o ∈ d.longTerm.optionsData, ∀ s ∈ d.shortTerm.optionsData,
      o.strike ≠ s.strike) :
    calculateDiscountFromDualExpiry d spotPrice lockupDays riskFreeRate =
      .error .noCommonStrikes := by
  have hempty : (d.longTerm.optionsData.filter
      (fun o => decide (o.strike ∈ d.shortTerm.optionsData.map (fun o => o.strike)))) = [] := by
    rw [List.filter_eq_nil_iff]
    intro o ho
    simp only [decide_eq_true_eq, List.mem_map, not_exists, not_and]
    rintro s hs heq
    exact h o ho s hs heq.symm
  simp only [calculateDiscountFromDualExpiry, hempty, List.isEmpty_nil, if_true]

/-- Witness for C7 on the concrete disjoint-strike sample data. -/
theorem dualExpiry_disjoint_strikes_error_witness :
    calculateDiscountFromDualExpiry sampleDisjointData 100 120 0 =
      .error .noCommonStrikes :=
  dualExpiry_disjoint_strikes_error sampleDisjointData 100 120 0
    (by
      intro o ho s hs
      simp only [sampleDisjointData, sampleContractA, sampleContractB,
        List.mem_singleton] at ho hs
      subst ho; subst hs
      norm_num)

/-- Claim C10: in every successful dual-expiry computation, each per-strike
result carries the same extrapolated volatility, computed only from the two
per-expiry average implied vols and tenors (never from the individual
contract's implied vol). -/
theorem dualExpiry_uniform_extrapolatedVol
    (d : DualExpiryData) (spotPrice lockupDays : ℚ) (riskFreeRate : ℝ)
    (c : ATMCalculation)
    (hc : c ∈ (calculateDiscountFromDualExpiry d spotPrice lockupDays
      riskFreeRate).toOption.elim [] (fun res => res.atmCalculations)) :
    c.impliedVolatility =
      calculateExtrapolatedVolatility ((d.shortTerm.impliedVol : ℝ) / 100)
        (d.shortTerm.timeToExpiry : ℝ) ((d.longTerm.impliedVol : ℝ) / 100)
        (d.longTerm.timeToExpiry : ℝ) (d.targetTimeToExpiry : ℝ) d.strategy * 100 := by
  simp only [calculateDiscountFromDualExpiry] at hc
  split at hc
  · simp [Except.toOption] at hc
  · split at hc
    · simp [Except.toOption] at hc
    · simp only [Except.toOption, Option.elim] at hc
      rw [List.mem_filterMap] at hc
      obtain ⟨a, ha, hfa⟩ := hc
      split at hfa
      · exact absurd hfa (by simp)
      · rw [Option.some_inj] at hfa
        subst hfa
        rfl

/-- The sample computation succeeds with a nonempty per-strike list. -/
theorem sampleDualCalcList_ne_nil : sampleDualCalcList ≠ [] := by
  simp only [sampleDualCalcList, calculateDiscountFromDualExpiry, sampleDualData,
    sampleContractC, sampleContractD, List.map_cons, List.map_nil, List.filter,
    List.insertionSort, List.orderedInsert, List.take, List.filterMap, List.find?,
    Except.toOption, Option.elim]
  norm_num

/-- Witness for C10: the head per-strike result of the sample computation
carries exactly the shared extrapolated volatility. -/
theorem dualExpiry_uniform_extrapolatedVol_witness :
    (sampleDualCalcList.head sampleDualCalcList_ne_nil).impliedVolatility =
      calculateExtrapolatedVolatility ((sampleDualData.shortTerm.impliedVol : ℝ) / 100)
        (sampleDualData.shortTerm.timeToExpiry : ℝ)
        ((sampleDualData.longTerm.impliedVol : ℝ) / 100)
        (sampleDualData.longTerm.timeToExpiry : ℝ)
        (sampleDualData.targetTimeToExpiry : ℝ) sampleDualData.strategy * 100 :=
  dualExpiry_uniform_extrapolatedVol sampleDualData 100 120 0 _
    (List.head_mem sampleDualCalcList_ne_nil)

/-- Counterexample to claim C8: fed a contract with `impliedVol = 0`, the
single-expiry engine does not raise; it succeeds and its per-strike result is
computed from the silently substituted default volatility `0.8` (recorded as
`80`%). -/
theorem zeroIV_default_counterexample :
    (calculateDiscountFromOptions [zeroIVContract] 100 90 0).toOption.map
      (fun res => res.atmCalculations.map (fun c => c.impliedVolatility)) =
      some [80] := by
  simp only [calculateDiscountFromOptions, zeroIVContract, fallbackVolatility,
    List.map_cons, List.map_nil, List.insertionSort, List.orderedInsert,
    List.take, List.isEmpty_cons, Except.toOption, Option.elim, Option.map]
  norm_num

/-- Claim C8 (amended): the engine does substitute documented defaults for
structurally broken inputs instead of raising: non-positive variance
extrapolator anchors yield the numeric fallback `max shortVol longVol`, and a
contract with `impliedVol = 0` is priced from the default volatility `0.8`. -/
theorem engine_substitutes_defaults :
    (∀ sv st lv lt tt : ℝ, ∀ strategy : ExtrapolationStrategy,
        sv ≤ 0 ∨ lv ≤ 0 ∨ st ≤ 0 ∨ lt ≤ 0 ∨ tt ≤ 0 →
        calculateExtrapolatedVolatility sv st lv lt tt strategy = max sv lv) ∧
    (∀ T : ℚ, fallbackVolatility 0 T =
        if (0.25 : ℚ) < T ∧ T ≤ 1.0 then
          varianceExtrapolation ((0.8 : ℚ) : ℝ) 0.25 (((0.8 : ℚ) : ℝ) * 1.1) 1.0 (T : ℝ)
        else ((0.8 : ℚ) : ℝ)) := by
  constructor
  · exact fun sv st lv lt tt strategy h =>
      calculateExtrapolatedVolatility_invalid_eq sv st lv lt tt strategy h
  · intro T
    by_cases h1 : (0.25 : ℚ) < T
    · by_cases h2 : T ≤ 1.0
      · simp [fallbackVolatility, h1, h2]
      · simp [fallbackVolatility, h1, h2]
    · simp [fallbackVolatility, h1]

/-- Witness for the amended C8: a negative anchor and a zero-IV contract both
get defaults, at concrete inputs. -/
theorem engine_substitutes_defaults_witness :
    calculateExtrapolatedVolatility (-1) 1 1 1 1 ExtrapolationStrategy.extrapolation =
        max (-1) 1 ∧
      fallbackVolatility 0 2 = ((0.8 : ℚ) : ℝ) := by
  constructor
  · exact engine_substitutes_defaults.1 (-1) 1 1 1 1 _ (Or.inl (by norm_num))
  · have h := engine_substitutes_defaults.2 2
    rwa [if_neg (by norm_num)] at h

/-- The scan finds nothing when the target is strictly below every element. -/
theorem findBracket_eq_none_of_forall_lt (t : ℤ) :
    ∀ l : List ℤ, (∀ x ∈ l, t < x) → findBracket t l = none
  | [] , _ => rfl
  | [_], _ => rfl
  | a :: b :: rest, h => by
      simp only [findBracket]
      rw [if_neg]
      · exact findBracket_eq_none_of_forall_lt t (b :: rest)
          (fun x hx => h x (List.mem_cons_of_mem a hx))
      · rintro ⟨h1, -⟩
        exact absurd h1 (not_le.mpr (h a (List.mem_cons_self a _)))

/-- The scan finds nothing when the target is strictly above every element. -/
theorem findBracket_eq_none_of_forall_gt (t : ℤ) :
    ∀ l : List ℤ, (∀ x ∈ l, x < t) → findBracket t l = none
  | [] , _ => rfl
  | [_], _ => rfl
  | a :: b :: rest, h => by
      simp only [findBracket]
      rw [if_neg]
      · exact findBracket_eq_none_of_forall_gt t (b :: rest)
          (fun x hx => h x (List.mem_cons_of_mem a hx))
      · rintro ⟨-, h2⟩
        exact absurd h2 (not_le.mpr (h b (List.mem_cons_of_mem a (List.mem_cons_self b _))))

/-- On every list of length at least two, `lastTwo` succeeds. -/
theorem lastTwo_eq_some_of_length :
    ∀ l : List ℤ, 2 ≤ l.length → ∃ a b, lastTwo l = some (a, b)
  | [], h => by simp at h
  | [_], h => by simp at h
  | [a, b], _ => ⟨a, b, rfl⟩
  | _ :: b :: c :: rest, _ => by
      obtain ⟨x, y, hxy⟩ := lastTwo_eq_some_of_length (b :: c :: rest) (by simp)
      exact ⟨x, y, by simpa [lastTwo] using hxy⟩

/-- The second component of `lastTwo` is a member of the list. -/
theorem lastTwo_snd_mem :
    ∀ (l : List ℤ) (a b : ℤ), lastTwo l = some (a, b) → b ∈ l
  | [], a, b, h => by simp [lastTwo] at h
  | [_], a, b, h => by simp [lastTwo] at h
  | [x, y], a, b, h => by
      simp only [lastTwo, Option.some_inj, Prod.mk.injEq] at h
      simp [h.2.symm]
  | x :: y :: z :: rest, a, b, h => by
      have hm := lastTwo_snd_mem (y :: z :: rest) a b (by simpa [lastTwo] using h)
      exact List.mem_cons_of_mem x hm

/-- In a sorted list, every element is at most the second component of
`lastTwo`. -/
theorem le_lastTwo_snd_of_sorted :
    ∀ (l : List ℤ) (a b : ℤ), List.Sorted (· ≤ ·) l → lastTwo l = some (a, b) →
      ∀ x ∈ l, x ≤ b
  | [], a, b, _, h => by simp [lastTwo] at h
  | [_], a, b, _, h => by simp [lastTwo] at h
  | [p, q], a, b, hs, h => by
      simp only [lastTwo, Option.some_inj, Prod.mk.injEq] at h
      obtain ⟨-, rfl⟩ := h
      intro x hx
      rcases List.mem_pair.mp hx with rfl | rfl
      · exact List.rel_of_sorted_cons hs _ (List.mem_singleton_self _)
      · exact le_refl _
  | p :: q :: r :: rest, a, b, hs, h => by
      have htail := le_lastTwo_snd_of_sorted (q :: r :: rest) a b
        (List.sorted_cons.mp hs).2 (by simpa [lastTwo] using h)
      intro x hx
      rcases List.mem_cons.mp hx with rfl | hx2
      · exact le_trans ((List.sorted_cons.mp hs).1 q
          (List.mem_cons_self q _)) (htail q (List.mem_cons_self q _))
      · exact htail x hx2

/-- The scan returns exactly the first bracketing adjacent pair. -/
theorem findBracket_eq_of_first (t : ℤ) :
    ∀ (l : List ℤ) (i : ℕ) (hi : i + 1 < l.length),
      l.get ⟨i, Nat.lt_of_succ_lt hi⟩ ≤ t → t ≤ l.get ⟨i + 1, hi⟩ →
      (∀ j (hj : j + 1 < l.length), j < i →
        ¬(l.get ⟨j, Nat.lt_of_succ_lt hj⟩ ≤ t ∧ t ≤ l.get ⟨j + 1, hj⟩)) →
      findBracket t l = some (l.get ⟨i, Nat.lt_of_succ_lt hi⟩, l.get ⟨i + 1, hi⟩)
  | [], i, hi => by simp only [List.length_nil] at hi; omega
  | [_], i, hi => by simp only [List.length_singleton] at hi; omega
  | a :: b :: rest, 0, hi => by
      intro h1 h2 _
      simp only [findBracket]
      rw [if_pos ⟨h1, h2⟩]
      rfl
  | a :: b :: rest, (k+1), hi => by
      intro h1 h2 hmin
      have hlen : k + 1 < (b :: rest).length := Nat.lt_of_succ_lt_succ hi
      have h0 : ¬(a ≤ t ∧ t ≤ b) :=
        hmin 0 (Nat.succ_lt_succ (Nat.zero_lt_succ _)) (Nat.succ_pos k)
      simp only [findBracket]
      rw [if_neg h0]
      exact findBracket_eq_of_first t (b :: rest) k hlen h1 h2
        (fun j hj hjk => hmin (j+1) (Nat.succ_lt_succ hj) (Nat.succ_lt_succ hjk))

/-- Claim C1: on a sorted list of at least two expiries the selector returns
the first adjacent bracketing pair tagged INTERPOLATION; the last two tagged
EXTRAPOLATION when the target exceeds the last expiry; and the first two
tagged BOUNDED_EXTRAPOLATION when the target precedes the first expiry. -/
theorem findOptimalExpiryPair_spec (es : List ℤ) (t : ℤ)
    (hs : List.Sorted (· ≤ ·) es) (h2 : 2 ≤ es.length) :
    (∀ i (hi : i + 1 < es.length),
        es.get ⟨i, Nat.lt_of_succ_lt hi⟩ ≤ t → t ≤ es.get ⟨i + 1, hi⟩ →
        (∀ j (hj : j + 1 < es.length), j < i →
          ¬(es.get ⟨j, Nat.lt_of_succ_lt hj⟩ ≤ t ∧ t ≤ es.get ⟨j + 1, hj⟩)) →
        findOptimalExpiryPair es t =
          some (es.get ⟨i, Nat.lt_of_succ_lt hi⟩, es.get ⟨i + 1, hi⟩,
            ExtrapolationStrategy.interpolation)) ∧
    (∀ a b, lastTwo es = some (a, b) → b < t →
        findOptimalExpiryPair es t =
          some (a, b, ExtrapolationStrategy.extrapolation)) ∧
    (∀ a b, firstTwo es = some (a, b) → t < a →
        findOptimalExpiryPair es t =
          some (a, b, ExtrapolationStrategy.boundedExtrapolation)) := by
  have hsort : List.insertionSort (· ≤ ·) es = es := List.Sorted.insertionSort_eq hs
  refine ⟨?_, ?_, ?_⟩
  · intro i hi hle hge hmin
    have hbr := findBracket_eq_of_first t es i hi hle hge hmin
    simp only [findOptimalExpiryPair, hsort]
    rw [if_neg (by omega)]
    rw [hbr]
  · intro a b hlast hbt
    have hall : ∀ x ∈ es, x < t := fun x hx =>
      lt_of_le_of_lt (le_lastTwo_snd_of_sorted es a b hs hlast x hx) hbt
    have hbr := findBracket_eq_none_of_forall_gt t es hall
    obtain ⟨f1, f2, hfirst⟩ : ∃ f1 f2, firstTwo es = some (f1, f2) := by
      match es, h2 with
      | x :: y :: tl, _ => exact ⟨x, y, rfl⟩
    simp only [findOptimalExpiryPair, hsort]
    rw [if_neg (by omega)]
    rw [hbr, hlast, hfirst]
    simp [hbt]
  · intro a b hfirst hta
    obtain ⟨tail, rfl⟩ : ∃ tail, es = a :: b :: tail := by
      match es, hfirst with
      | x :: y :: tl, hf =>
        simp only [firstTwo, Option.some_inj, Prod.mk.injEq] at hf
        exact ⟨tl, by rw [hf.1, hf.2]⟩
    have hall : ∀ x ∈ a :: b :: tail, t < x := by
      intro x hx
      rcases List.mem_cons.mp hx with rfl | hx2
      · exact hta
      · exact lt_of_lt_of_le hta ((List.sorted_cons.mp hs).1 x hx2)
    have hbr := findBracket_eq_none_of_forall_lt t _ hall
    obtain ⟨la, lb, hlast⟩ := lastTwo_eq_some_of_length (a :: b :: tail) (by simp)
    have hnot : ¬ lb < t :=
      not_lt.mpr (le_of_lt (hall lb (lastTwo_snd_mem _ la lb hlast)))
    simp only [findOptimalExpiryPair, hsort]
    rw [if_neg (by simp only [List.length_cons]; omega)]
    rw [hbr, hlast]
    simp only [firstTwo]
    simp [hnot]

/-- Witness for C1 on the sorted list `[0, 10]` with target `5`: the first
adjacent pair brackets the target and is tagged INTERPOLATION. -/
theorem findOptimalExpiryPair_spec_witness :
    findOptimalExpiryPair [0, 10] 5 =
      some (0, 10, ExtrapolationStrategy.interpolation) := by
  have h := (findOptimalExpiryPair_spec [0, 10] 5 (by decide) (by decide)).1 0
    (by decide) (by decide) (by decide)
    (fun j hj hj0 => absurd hj0 (Nat.not_lt_zero j))
  simpa using h
